import Mathlib

/-!
# Verification of `scripts/mlp_loop_combined.py`

A shallow embedding of the experiment script `mlp_loop_combined.py` from the
`learning-to-learn` repository, together with theorems settling the claims of
its specification.

The script has three functions:

* `run_experiment(nb_categories, nb_exemplars, params)` — one grid cell:
  asserts `nb_categories <= 50`, computes a capped batch size, seeds the RNG,
  builds attribute pools (reducing the train pools when `nb_categories < 50`),
  builds and noises the training set and two test-trial batches, then runs
  `params['nb_trials']` repetitions of train-restore-score.
* `experiment_loop(exectue_fn, category_trials, exemplar_trials, params,
  results_path)` — the sweep: (re)creates the results directory, saves the
  grids, and for each `(i, j)` grid cell in row-major order runs
  `exectue_fn`, writes the returned score sequences into slices of two 3-D
  zero-initialized result tensors, and saves both tensors.
* `main()` — fixes the grids `[2,4,8,16,32,50] × [3,6,9,12,15,18]`.

The numeric computations (`min`, floor division, the grid lists, tensor slice
assignment, zero initialization) are embedded at value level.  The effectful
orchestration (seeding, file removal, training calls, saves) is embedded as a
trace of events emitted in the source's program order; every intermediate
array value (training set, test batches, their noisy copies) is identified by
an allocation tag (a `Nat`, numbered in order of creation) so that the events
record which value each call consumes and produces.

The helper functions imported from the `learning2learn` package
(`train_test_split`, `add_noise`, the builders, `train_model`,
`evaluate_generalization`) are not part of this repository's sources; where a
claim depends on their behaviour (only `train_test_split`) they are modelled
from the spec, as documented on the definition.
-/

namespace MlpLoopCombined

/-- The `params` dictionary built in `main` (source lines 168-174):
`nb_epochs`, `batch_size`, `nb_trials`, `nb_test`, `noise`.  The noise level
is a real-valued probability; it is modelled as a rational.  It is only ever
passed through to `add_noise`, so no claim depends on its arithmetic. -/
structure Params where
  nb_epochs : Nat
  batch_size : Nat
  nb_trials : Nat
  nb_test : Nat
  noise : Rat

/-- Source line 89: `weights_file = '../data/mlp_combined.h5'`.  A single
fixed literal, assigned anew (to the same value) in every repetition. -/
def weights_file : String := "../data/mlp_combined.h5"

/-- Source line 26: `int(np.floor(nb_categories*nb_exemplars/5))`.  On
natural numbers, flooring the exact real quotient is natural division. -/
def batch_size_cap (nb_categories nb_exemplars : Nat) : Nat :=
  nb_categories * nb_exemplars / 5

/-- Source lines 24-27: `batch_size = min(params['batch_size'], int(np.floor(
nb_categories*nb_exemplars/5)))`. -/
def computed_batch_size (params_batch_size nb_categories nb_exemplars : Nat) : Nat :=
  min params_batch_size (batch_size_cap nb_categories nb_exemplars)

/-- Source line 176: `category_trials = [2, 4, 8, 16, 32, 50]`. -/
def category_trials : List Nat := [2, 4, 8, 16, 32, 50]

/-- Source line 177: `exemplar_trials = [3, 6, 9, 12, 15, 18]`. -/
def exemplar_trials : List Nat := [3, 6, 9, 12, 15, 18]

/-! ## Attribute pools (source lines 38-54)

`get_train_test_parameters(images=False, nb_bits=20)` returns a train/test
pool pair for each of shape, color and texture.  `run_experiment` then, when
`nb_categories < 50`, replaces each *train* pool by the first component of
`train_test_split(pool, 50 - nb_categories)`; the test pools are never
reassigned. -/

/-- The six pools returned by `get_train_test_parameters` (source
lines 38-41), as the script binds them. -/
structure PoolParams (α : Type) where
  shape_set_train : List α
  shape_set_test : List α
  color_set_train : List α
  color_set_test : List α
  texture_set_train : List α
  texture_set_test : List α

/-- Modelled from the spec: `learning2learn.util.train_test_split` is
imported by the script (source line 18) but its definition is not in this
repository's sources.  Per the spec (§4.1), splitting a pool keeps a
uniform-random subset chosen without replacement and splits the rest off.
The randomness is modelled by taking the *already shuffled* pool as input (a
permutation of the original pool, supplied by the caller); the call then
splits off `nb_test` elements and keeps the remaining
`shuffled.length - nb_test`, returning `(train, test)` as the script's
destructuring `train, _ = train_test_split(pool, n)` expects. -/
def train_test_split (shuffled : List α) (nb_test : Nat) : List α × List α :=
  (shuffled.drop nb_test, shuffled.take nb_test)

/-- Source lines 42-54: when `nb_categories < 50`, each of the three train
pools is replaced by the kept component of
`train_test_split(pool, 50 - nb_categories)`; otherwise nothing is touched.
`σ` models the process-wide RNG's shuffle inside `train_test_split`: it is
applied to a pool before splitting and is assumed (in the theorems) to
permute its input. -/
def reduce_train_pools (σ : List α → List α) (nb_categories : Nat)
    (p : PoolParams α) : PoolParams α :=
  if nb_categories < 50 then
    { p with
      shape_set_train :=
        (train_test_split (σ p.shape_set_train) (50 - nb_categories)).1,
      color_set_train :=
        (train_test_split (σ p.color_set_train) (50 - nb_categories)).1,
      texture_set_train :=
        (train_test_split (σ p.texture_set_train) (50 - nb_categories)).1 }
  else p

/-! ## Trace-level embedding of `run_experiment` (source lines 21-125)

Array values are identified by allocation tags, numbered in order of
creation:

* tag 0 — `X_train` (line 58);
* tag 1 — the raw `X_test_order1` (line 66);
* tag 2 — the raw `X_test_order2` (line 71);
* tag 3 — `add_noise(X_test_order1, ...)` rebinding `X_test_order1`
  (line 75);
* tag 4 — `add_noise(X_test_order2, ...)` rebinding `X_test_order2`
  (line 76);
* tag `5 + i` — `X_train_noisy` of repetition `i` (line 81).
-/

/-- One event of the embedded `run_experiment`, in the source's program
order.  Pool indices in `trainTestSplitPool`: 0 = shape, 1 = color,
2 = texture. -/
inductive REvent where
  | seedRNG (value : Nat)
  | createSession
  | getTrainTestParameters
  | trainTestSplitPool (pool : Nat) (nb_test : Nat)
  | synthesizeData (nb_categories nb_exemplars : Nat)
  | buildTrainSetBits (tag : Nat)
  | oneHotEncode
  | buildTestTrialsO1Bits (tag : Nat) (nb_trials : Nat)
  | buildTestTrialsO2Bits (tag : Nat) (nb_trials : Nat)
  | addNoise (src : Nat) (dst : Nat)
  | simpleMlp (rep : Nat)
  | removeIfExists (path : String)
  | trainModel (rep : Nat) (batchSize : Nat) (epochs : Nat) (checkpointPath : String)
  | loadWeights (rep : Nat) (path : String)
  | evaluateGeneralization (rep : Nat) (testTag : Nat)
  | clearSession
deriving DecidableEq

/-- The events of one iteration of the repetition loop (source lines 79-121)
for repetition `i`: draw a fresh noisy training copy (a fresh tag `c`), build
a fresh model, remove any existing checkpoint file, train with the computed
batch size, restore the best weights, and score both noised test batches
(tags 3 and 4). -/
def repEvents (i c batchSize epochs : Nat) : List REvent :=
  [ .addNoise 0 c,
    .simpleMlp i,
    .removeIfExists weights_file,
    .trainModel i batchSize epochs weights_file,
    .loadWeights i weights_file,
    .evaluateGeneralization i 3,
    .evaluateGeneralization i 4 ]

/-- The repetition loop `for i in range(params['nb_trials'])` (source
line 79).  Fresh tags for the noisy training copies start at 5. -/
def repTrace (nbTrials batchSize epochs : Nat) : List REvent :=
  (List.range nbTrials).flatMap (fun i => repEvents i (5 + i) batchSize epochs)

/-- The events before the repetition loop (source lines 28-76): seed, session,
pool construction and (conditional) train-pool reduction, training-set and
test-trial construction, and the single noising of each test batch. -/
def prefixEvents (nb_categories nb_exemplars nb_test : Nat) : List REvent :=
  [ .seedRNG 0,
    .createSession,
    .getTrainTestParameters ] ++
  (if nb_categories < 50 then
    [ .trainTestSplitPool 0 (50 - nb_categories),
      .trainTestSplitPool 1 (50 - nb_categories),
      .trainTestSplitPool 2 (50 - nb_categories) ]
   else []) ++
  [ .synthesizeData nb_categories nb_exemplars,
    .buildTrainSetBits 0,
    .oneHotEncode,
    .buildTestTrialsO1Bits 1 nb_test,
    .buildTestTrialsO2Bits 2 nb_test,
    .addNoise 1 3,
    .addNoise 2 4 ]

/-- The embedded `run_experiment` (source lines 21-125).  The `assert
nb_categories <= 50` (line 22) is the only failure path; past it, the
function unconditionally emits the prefix events, the repetition loop's
events, and the session teardown.  There is no other check of any kind: in
particular the computed batch size is passed to `train_model` whatever its
value. -/
def run_experiment (nb_categories nb_exemplars : Nat) (params : Params) :
    Except String (List REvent) :=
  if nb_categories ≤ 50 then
    .ok (prefixEvents nb_categories nb_exemplars params.nb_test ++
         repTrace params.nb_trials
           (computed_batch_size params.batch_size nb_categories nb_exemplars)
           params.nb_epochs ++
         [.clearSession])
  else
    .error "AssertionError: nb_categories <= 50"

/-- Extract the trace from a `run_experiment` result (empty on the assertion
failure path). -/
def traceOf (r : Except String (List REvent)) : List REvent :=
  r.toOption.getD []

/-! ## Embedding of `experiment_loop` (source lines 127-162)

The two result tensors `results_o1_gen` and `results_o2_gen` are modelled as
total functions `Nat → Nat → Nat → Rat` (category index, exemplar index,
repetition index); `np.zeros` is the constant-zero function and the slice
assignment `results[i, j] = scores` overwrites one `(i, j)` slice.  Scores
(floats in the script) are modelled as rationals; no claim depends on their
arithmetic, only on where they are stored.

Besides the final tensors, the embedding records the trace of effects and,
for each of the two `np.save` calls of each cell, the tensor value persisted
by that call, in order. -/

/-- A 3-D result tensor, indexed (category index, exemplar index, repetition
index). -/
def Tensor : Type := Nat → Nat → Nat → Rat

/-- `np.zeros(...)` (source lines 140-145): every entry is `0.0`. -/
def zeros : Tensor := fun _ _ _ => 0

/-- The numpy slice assignment `results[i, j] = scores` (source lines
154-155): the `(i, j)` slice now holds `scores`, every other entry is
unchanged. -/
def writeSlice (t : Tensor) (i j : Nat) (scores : List Rat) : Tensor :=
  fun a b r => if a = i ∧ b = j then scores.getD r 0 else t a b r

/-- One event of the embedded `experiment_loop`, in the source's program
order. -/
inductive LEvent where
  | warnOldResults
  | rmtreeResultsPath
  | mkdirResultsPath
  | saveCategoryTrials
  | saveExemplarTrials
  | openLogFile (nb_categories nb_exemplars : Nat)
  | execCell (i j nb_categories nb_exemplars : Nat)
  | restoreStdout
  | saveO1Gen
  | saveO2Gen
  | loopComplete
deriving DecidableEq

/-- The state threaded through the sweep: the two tensors, the trace, and the
successive tensor values persisted by the `np.save` calls for each file. -/
structure LoopState where
  results_o1_gen : Tensor
  results_o2_gen : Tensor
  trace : List LEvent
  savedO1 : List Tensor
  savedO2 : List Tensor

/-- The row-major cell enumeration of the two nested loops (source lines
146-147): `(i, nb_categories)` over `enumerate(category_trials)` outside,
`(j, nb_exemplars)` over `enumerate(exemplar_trials)` inside.  Each element
is `(i, j, nb_categories, nb_exemplars)`. -/
def cellList (cats exs : List Nat) : List (Nat × Nat × Nat × Nat) :=
  cats.enum.flatMap (fun ci => exs.enum.map (fun ej => (ci.1, ej.1, ci.2, ej.2)))

/-- The body of the inner loop (source lines 148-161) for one cell: open the
cell's log file, run `exectue_fn`, restore stdout, write the two returned
score sequences into the `(i, j)` slices, and save each tensor to its file.
Each `np.save` persists the tensor's value at that moment. -/
def processCell (exectue_fn : Nat → Nat → Params → List Rat × List Rat)
    (params : Params) (st : LoopState) (cell : Nat × Nat × Nat × Nat) :
    LoopState :=
  let i := cell.1
  let j := cell.2.1
  let nb_categories := cell.2.2.1
  let nb_exemplars := cell.2.2.2
  let scores := exectue_fn nb_categories nb_exemplars params
  let o1 := writeSlice st.results_o1_gen i j scores.1
  let o2 := writeSlice st.results_o2_gen i j scores.2
  { results_o1_gen := o1,
    results_o2_gen := o2,
    trace := st.trace ++
      [ .openLogFile nb_categories nb_exemplars,
        .execCell i j nb_categories nb_exemplars,
        .restoreStdout,
        .saveO1Gen,
        .saveO2Gen ],
    savedO1 := st.savedO1 ++ [o1],
    savedO2 := st.savedO2 ++ [o2] }

/-- The embedded `experiment_loop` (source lines 127-162).
`results_path_exists` models `os.path.isdir(results_path)` at entry: when
true, a warning is emitted and the old directory tree is removed; in both
cases a fresh directory is created, the two grid lists are saved, the two
tensors start at zero, every cell is processed in row-major order, and the
loop finishes normally. -/
def experiment_loop (exectue_fn : Nat → Nat → Params → List Rat × List Rat)
    (cats exs : List Nat) (params : Params) (results_path_exists : Bool) :
    LoopState :=
  let dirEvents : List LEvent :=
    if results_path_exists then
      [.warnOldResults, .rmtreeResultsPath, .mkdirResultsPath]
    else
      [.mkdirResultsPath]
  let st0 : LoopState :=
    { results_o1_gen := zeros,
      results_o2_gen := zeros,
      trace := dirEvents ++ [.saveCategoryTrials, .saveExemplarTrials],
      savedO1 := [],
      savedO2 := [] }
  let stN := (cellList cats exs).foldl (processCell exectue_fn params) st0
  { stN with trace := stN.trace ++ [.loopComplete] }

/-! ## Trace observations and property checkers

These definitions formalize the properties the claims speak about; they are
spec-side observers of the traces, not part of the embedded program. -/

/-- Is this event a reseeding of the process-wide RNG? -/
def isSeedRNG : REvent → Bool
  | .seedRNG _ => true
  | _ => false

/-- Is this event the construction of the order-1 test trials? -/
def isBuildTestO1 : REvent → Bool
  | .buildTestTrialsO1Bits _ _ => true
  | _ => false

/-- Is this event the construction of the order-2 test trials? -/
def isBuildTestO2 : REvent → Bool
  | .buildTestTrialsO2Bits _ _ => true
  | _ => false

/-- Is this event an `add_noise` call reading the value with tag `src`? -/
def isAddNoiseFrom (src : Nat) : REvent → Bool
  | .addNoise s _ => s == src
  | _ => false

/-- Test-batch preparation: building either test-trial batch, or noising one
of the two raw test batches (tags 1 and 2). -/
def isTestPrep (e : REvent) : Bool :=
  isBuildTestO1 e || isBuildTestO2 e || isAddNoiseFrom 1 e || isAddNoiseFrom 2 e

/-- A step of the per-repetition model work: constructing or training a
model. -/
def isModelStep : REvent → Bool
  | .simpleMlp _ => true
  | .trainModel _ _ _ _ => true
  | _ => false

/-- Scan checking that no test-batch preparation happens once the first
model has been built or trained: the test batches are fully prepared before
the repetition loop and never rebuilt or re-noised inside it.  The second
argument records whether a model step has been seen. -/
def testsFixedAux : List REvent → Bool → Bool
  | [], _ => true
  | e :: rest, started =>
    if started && isTestPrep e then false
    else testsFixedAux rest (started || isModelStep e)

/-- `testsFixedAux` started outside the repetition loop. -/
def testsFixedBeforeLoop (tr : List REvent) : Bool :=
  testsFixedAux tr false

/-- Scan checking that every `trainModel` event is preceded by a
`removeIfExists weights_file` event with no other `trainModel` in between:
before each training run the stale checkpoint file has just been cleared.
The second argument records whether such a removal has happened since the
last training. -/
def removeBeforeTrainAux : List REvent → Bool → Bool
  | [], _ => true
  | .removeIfExists p :: rest, _ => removeBeforeTrainAux rest (p == weights_file)
  | .trainModel _ _ _ _ :: rest, cleared => cleared && removeBeforeTrainAux rest false
  | _ :: rest, cleared => removeBeforeTrainAux rest cleared

/-- `removeBeforeTrainAux` started with no removal seen. -/
def removeBeforeEveryTrain (tr : List REvent) : Bool :=
  removeBeforeTrainAux tr false

/-- The checkpoint path an event trains against, if it is a training
event. -/
def checkpointPathOf : REvent → Option String
  | .trainModel _ _ _ p => some p
  | _ => none

/-- The cell coordinates of a sweep event, if it is the execution of a grid
cell. -/
def execOf : LEvent → Option (Nat × Nat × Nat × Nat)
  | .execCell i j c e => some (i, j, c, e)
  | _ => none

/-- Scan checking that after every `execCell` both tensors are saved before
the next `execCell` (and before the trace ends).  The two Boolean arguments
record which of the two saves are still pending. -/
def savesAfterEachExecAux : List LEvent → Bool → Bool → Bool
  | [], n1, n2 => !n1 && !n2
  | .execCell _ _ _ _ :: rest, n1, n2 =>
      !n1 && !n2 && savesAfterEachExecAux rest true true
  | .saveO1Gen :: rest, _, n2 => savesAfterEachExecAux rest false n2
  | .saveO2Gen :: rest, n1, _ => savesAfterEachExecAux rest n1 false
  | _ :: rest, n1, n2 => savesAfterEachExecAux rest n1 n2

/-- `savesAfterEachExecAux` with no save pending initially. -/
def savesAfterEachExec (tr : List LEvent) : Bool :=
  savesAfterEachExecAux tr false false

/-- Scan checking that no grid cell executes before the results directory
has been created. -/
def noExecBeforeMkdir : List LEvent → Bool
  | [] => true
  | .mkdirResultsPath :: _ => true
  | .execCell _ _ _ _ :: _ => false
  | _ :: rest => noExecBeforeMkdir rest

/-! ## Spec-side recursions describing the sweep's tensor evolution -/

/-- The events one cell contributes to the sweep trace. -/
def cellEvents (cell : Nat × Nat × Nat × Nat) : List LEvent :=
  [ .openLogFile cell.2.2.1 cell.2.2.2,
    .execCell cell.1 cell.2.1 cell.2.2.1 cell.2.2.2,
    .restoreStdout,
    .saveO1Gen,
    .saveO2Gen ]

/-- Writing one cell's scores into a tensor, where `f` gives the score
sequence for given `(nb_categories, nb_exemplars)`. -/
def applyCell (f : Nat → Nat → List Rat) (t : Tensor)
    (cell : Nat × Nat × Nat × Nat) : Tensor :=
  writeSlice t cell.1 cell.2.1 (f cell.2.2.1 cell.2.2.2)

/-- Writing a sequence of cells into a tensor, left to right. -/
def applyCells (f : Nat → Nat → List Rat) (t : Tensor)
    (cells : List (Nat × Nat × Nat × Nat)) : Tensor :=
  cells.foldl (applyCell f) t

/-- The successive tensor values after each cell write, starting from `t`:
the `k`-th element is the tensor with the first `k + 1` cells written. -/
def snapshotsFrom (f : Nat → Nat → List Rat) (t : Tensor) :
    List (Nat × Nat × Nat × Nat) → List Tensor
  | [] => []
  | c :: cs => applyCell f t c :: snapshotsFrom f (applyCell f t c) cs

/-! ## Concrete inputs used by witnesses and counterexamples -/

/-- Example params: epoch budget 400, batch size 32, two repetitions, 1000
test trials, zero noise. -/
def params_R2 : Params := ⟨400, 32, 2, 1000, 0⟩

/-- Example params with a single repetition, used for the zero-batch-size
input. -/
def params_C8 : Params := ⟨400, 32, 1, 1000, 0⟩

/-- A full 50-value attribute pool. -/
def pool50 : List Nat := List.range 50

/-- Example pools: each train pool is the full 50-value universe. -/
def pools_example : PoolParams Nat :=
  ⟨pool50, List.range 10, pool50, List.range 10, pool50, List.range 10⟩

/-- An example stand-in for `run_experiment` as the sweep's `exectue_fn`
argument: every cell returns the score sequences `([1], [1])`. -/
def exectue_fn_example : Nat → Nat → Params → List Rat × List Rat :=
  fun _ _ _ => ([1], [1])

/-- Example params for sweep witnesses. -/
def params_example : Params := ⟨400, 32, 10, 1000, 0⟩

/-! ## Helper lemmas -/

theorem run_experiment_ok (C E : Nat) (params : Params) (h : C ≤ 50) :
    run_experiment C E params =
      .ok (prefixEvents C E params.nb_test ++
           repTrace params.nb_trials
             (computed_batch_size params.batch_size C E) params.nb_epochs ++
           [.clearSession]) := by
  simp [run_experiment, h]

theorem mem_repTrace {e : REvent} {R b ep : Nat} :
    e ∈ repTrace R b ep ↔ ∃ i, i < R ∧ e ∈ repEvents i (5 + i) b ep := by
  simp [repTrace, List.mem_flatMap, List.mem_range]

theorem prefix_no_trainModel {C E n i b ep p}
    (h : (REvent.trainModel i b ep p) ∈ prefixEvents C E n) : False := by
  by_cases hc : C < 50 <;> simp [prefixEvents, hc] at h

theorem countP_repTrace_eq_zero {p : REvent → Bool} {R b ep}
    (h : ∀ i c, ∀ e ∈ repEvents i c b ep, ¬ p e = true) :
    (repTrace R b ep).countP p = 0 := by
  rw [List.countP_eq_zero]
  intro e he
  rw [mem_repTrace] at he
  obtain ⟨i, _, hei⟩ := he
  exact h i (5 + i) e hei

/-! ## Claims -/

/-- **C1.** For every category count `C` with `2 ≤ C < 50`, `run_experiment`
reduces each of the shape, color and texture train pools to exactly `C`
values — by splitting off `50 - C` values — while leaving the corresponding
test pools completely unchanged; for `C = 50` no pool is modified.  `σ`
models the RNG-driven shuffle inside the (spec-modelled) `train_test_split`
and is assumed to permute its input. -/
theorem C1_pool_subsetting {α : Type} (σ : List α → List α)
    (hσ : ∀ l, (σ l).Perm l) (p : PoolParams α)
    (hs : p.shape_set_train.length = 50)
    (hc : p.color_set_train.length = 50)
    (ht : p.texture_set_train.length = 50) :
    (∀ C, 2 ≤ C → C < 50 →
      ((reduce_train_pools σ C p).shape_set_train.length = C ∧
       (reduce_train_pools σ C p).color_set_train.length = C ∧
       (reduce_train_pools σ C p).texture_set_train.length = C) ∧
      ((train_test_split (σ p.shape_set_train) (50 - C)).2.length = 50 - C ∧
       (train_test_split (σ p.color_set_train) (50 - C)).2.length = 50 - C ∧
       (train_test_split (σ p.texture_set_train) (50 - C)).2.length = 50 - C) ∧
      ((reduce_train_pools σ C p).shape_set_test = p.shape_set_test ∧
       (reduce_train_pools σ C p).color_set_test = p.color_set_test ∧
       (reduce_train_pools σ C p).texture_set_test = p.texture_set_test)) ∧
    reduce_train_pools σ 50 p = p := by
  have lenσ : ∀ l : List α, (σ l).length = l.length :=
    fun l => (hσ l).length_eq
  constructor
  · intro C _ hC50
    refine ⟨⟨?_, ?_, ?_⟩, ⟨?_, ?_, ?_⟩, ?_, ?_, ?_⟩ <;>
      simp [reduce_train_pools, hC50, train_test_split, lenσ, hs, hc, ht] <;>
      omega
  · simp [reduce_train_pools]

/-- Witness for C1 at `C = 7` on concrete 50-element pools with the identity
shuffle. -/
theorem C1_pool_subsetting_witness :
    ((reduce_train_pools (fun l => l) 7 pools_example).shape_set_train.length = 7 ∧
     (reduce_train_pools (fun l => l) 7 pools_example).shape_set_test =
       pools_example.shape_set_test) ∧
    reduce_train_pools (fun l => l) 50 pools_example = pools_example := by
  have h := C1_pool_subsetting (fun l => l) (fun l => List.Perm.refl l)
    pools_example (by simp [pools_example, pool50])
    (by simp [pools_example, pool50]) (by simp [pools_example, pool50])
  exact ⟨⟨((h.1 7 (by omega) (by omega)).1).1,
    ((h.1 7 (by omega) (by omega)).2.2).1⟩, h.2⟩

/-- **C2.** For every call `run_experiment(nb_categories, nb_exemplars,
params)`, the batch size passed to training — carried by every `trainModel`
event of the trace — equals
`min(params['batch_size'], floor(nb_categories * nb_exemplars / 5))`. -/
theorem C2_batch_size_passed (C E : Nat) (params : Params)
    (tr : List REvent) (h : run_experiment C E params = .ok tr)
    (i b ep : Nat) (p : String)
    (hmem : (REvent.trainModel i b ep p) ∈ tr) :
    b = min params.batch_size (C * E / 5) := by
  by_cases hC : C ≤ 50
  · rw [run_experiment_ok C E params hC] at h
    obtain rfl := (Except.ok.injEq _ _).mp h.symm
    rcases List.mem_append.mp hmem with h1 | h2
    · rcases List.mem_append.mp h1 with hp | hr
      · exact absurd hp (fun hp => prefix_no_trainModel hp)
      · obtain ⟨j, _, hj⟩ := mem_repTrace.mp hr
        simp only [repEvents, List.mem_cons, List.not_mem_nil, or_false] at hj
        rcases hj with hj | hj | hj | hj | hj | hj | hj <;>
          first
            | (cases hj; rfl)
            | exact absurd hj (by simp)
    · simp at h2
  · simp [run_experiment, hC] at h

/-- Witness for C2 at `(C, E) = (8, 3)` with configured batch size 32:
the computed batch size is `min 32 4 = 4`. -/
theorem C2_batch_size_passed_witness :
    (4 : Nat) = min params_R2.batch_size (8 * 3 / 5) :=
  C2_batch_size_passed 8 3 params_R2
    (traceOf (run_experiment 8 3 params_R2)) rfl 0 4 400 weights_file
    (by decide)

/-- **C9.** For every fixed `nb_categories` in the documented grid
`[2,4,8,16,32,50]`, the batch-size cap
`floor(nb_categories * nb_exemplars / 5)` is nondecreasing in
`nb_exemplars` over the documented grid `[3,6,9,12,15,18]`, and is at least
1 for every `nb_exemplars` in that grid. -/
theorem C9_cap_monotone_ge_one :
    ∀ C ∈ category_trials,
      (∀ E ∈ exemplar_trials, ∀ F ∈ exemplar_trials,
        E ≤ F → batch_size_cap C E ≤ batch_size_cap C F) ∧
      (∀ E ∈ exemplar_trials, 1 ≤ batch_size_cap C E) := by
  decide

/-- Witness for C9 at `C = 2`: the cap at `E = 3` is at least 1 and does
not exceed the cap at `E = 6`. -/
theorem C9_cap_monotone_ge_one_witness :
    batch_size_cap 2 3 ≤ batch_size_cap 2 6 ∧ 1 ≤ batch_size_cap 2 3 :=
  ⟨(C9_cap_monotone_ge_one 2 (by decide)).1 3 (by decide) 6 (by decide)
      (by decide),
   (C9_cap_monotone_ge_one 2 (by decide)).2 3 (by decide)⟩

theorem countP_prefixEvents_isSeedRNG (C E n : Nat) :
    (prefixEvents C E n).countP isSeedRNG = 1 := by
  by_cases hc : C < 50 <;>
    simp [prefixEvents, hc, List.countP_append, List.countP_cons, isSeedRNG]

theorem repEvents_no_seed :
    ∀ i c b ep, ∀ e ∈ repEvents i c b ep, ¬ isSeedRNG e = true := by
  intro i c b ep e he
  simp only [repEvents, List.mem_cons, List.not_mem_nil, or_false] at he
  rcases he with rfl | rfl | rfl | rfl | rfl | rfl | rfl <;> simp [isSeedRNG]

/-- **C3 (corrected).** The process-wide RNG is reseeded from the fixed seed
exactly once per `run_experiment` call — that is, once per `(C, E)` grid
cell, as the very first action, before the repetition loop — not once before
each of the `R` repetitions. -/
theorem C3_seed_once_per_call (C E : Nat) (params : Params)
    (tr : List REvent) (h : run_experiment C E params = .ok tr) :
    tr.countP isSeedRNG = 1 ∧ tr.head? = some (REvent.seedRNG 0) := by
  by_cases hC : C ≤ 50
  · rw [run_experiment_ok C E params hC] at h
    obtain rfl := (Except.ok.injEq _ _).mp h.symm
    constructor
    · rw [List.countP_append, List.countP_append,
        countP_prefixEvents_isSeedRNG,
        countP_repTrace_eq_zero (fun i c => repEvents_no_seed i c _ _)]
      simp [List.countP_cons, isSeedRNG]
    · simp [prefixEvents]
  · simp [run_experiment, hC] at h

/-- Witness for C3's corrected statement at `(C, E) = (8, 3)`. -/
theorem C3_seed_once_per_call_witness :
    (traceOf (run_experiment 8 3 params_R2)).countP isSeedRNG = 1 ∧
    (traceOf (run_experiment 8 3 params_R2)).head? =
      some (REvent.seedRNG 0) :=
  C3_seed_once_per_call 8 3 params_R2 _ rfl

/-- **C3 counterexample.** With `R = 2` repetitions configured
(`params_R2.nb_trials = 2`), the trace of `run_experiment 8 3` does *not*
contain one seeding per repetition: it contains a single `seedRNG` event,
not `nb_trials` of them. -/
theorem C3_not_once_per_repetition :
    ¬ ((traceOf (run_experiment 8 3 params_R2)).countP isSeedRNG =
        params_R2.nb_trials) := by
  decide

theorem removeBeforeTrainAux_prefix (C E n : Nat) (rest : List REvent)
    (s : Bool) :
    removeBeforeTrainAux (prefixEvents C E n ++ rest) s =
      removeBeforeTrainAux rest s := by
  by_cases hc : C < 50 <;> simp [prefixEvents, hc, removeBeforeTrainAux]

theorem removeBeforeTrainAux_repEvents (i c b ep : Nat)
    (rest : List REvent) (s : Bool) :
    removeBeforeTrainAux (repEvents i c b ep ++ rest) s =
      removeBeforeTrainAux rest false := by
  simp [repEvents, removeBeforeTrainAux, weights_file]

theorem removeBeforeTrainAux_loop (b ep : Nat) :
    ∀ (L : List Nat) (s : Bool),
      removeBeforeTrainAux
        (L.flatMap (fun i => repEvents i (5 + i) b ep) ++
          [REvent.clearSession]) s = true
  | [], s => by simp [removeBeforeTrainAux]
  | i :: L, s => by
      rw [List.flatMap_cons, List.append_assoc,
        removeBeforeTrainAux_repEvents]
      exact removeBeforeTrainAux_loop b ep L false

/-- **C4 (corrected).** All repetitions of a `run_experiment` call train and
restore against the *same* fixed checkpoint path
`'../data/mlp_combined.h5'` — no repetition has a path of its own — but
before every training run any existing file at that path has just been
removed (a `removeIfExists` of that path precedes each `trainModel` with no
training in between), so restoration cannot load weights left over from a
previous run. -/
theorem C4_shared_checkpoint_cleared (C E : Nat) (params : Params)
    (tr : List REvent) (h : run_experiment C E params = .ok tr) :
    (∀ i b ep p, (REvent.trainModel i b ep p) ∈ tr → p = weights_file) ∧
    (∀ i p, (REvent.loadWeights i p) ∈ tr → p = weights_file) ∧
    removeBeforeEveryTrain tr = true := by
  by_cases hC : C ≤ 50
  · rw [run_experiment_ok C E params hC] at h
    obtain rfl := (Except.ok.injEq _ _).mp h.symm
    refine ⟨?_, ?_, ?_⟩
    · intro i b ep p hmem
      rcases List.mem_append.mp hmem with h1 | h2
      · rcases List.mem_append.mp h1 with hp | hr
        · exact absurd hp (fun hp => prefix_no_trainModel hp)
        · obtain ⟨j, _, hj⟩ := mem_repTrace.mp hr
          simp only [repEvents, List.mem_cons, List.not_mem_nil,
            or_false] at hj
          rcases hj with hj | hj | hj | hj | hj | hj | hj <;>
            (cases hj; try rfl)
      · simp at h2
    · intro i p hmem
      rcases List.mem_append.mp hmem with h1 | h2
      · rcases List.mem_append.mp h1 with hp | hr
        · by_cases hc : C < 50 <;> simp [prefixEvents, hc] at hp
        · obtain ⟨j, _, hj⟩ := mem_repTrace.mp hr
          simp only [repEvents, List.mem_cons, List.not_mem_nil,
            or_false] at hj
          rcases hj with hj | hj | hj | hj | hj | hj | hj <;>
            (cases hj; try rfl)
      · simp at h2
    · rw [removeBeforeEveryTrain, List.append_assoc,
        removeBeforeTrainAux_prefix, repTrace]
      exact removeBeforeTrainAux_loop _ _ _ _
  · simp [run_experiment, hC] at h

/-- Witness for C4's corrected statement at `(C, E) = (8, 3)`. -/
theorem C4_shared_checkpoint_cleared_witness :
    removeBeforeEveryTrain (traceOf (run_experiment 8 3 params_R2)) =
      true ∧
    weights_file = weights_file :=
  ⟨(C4_shared_checkpoint_cleared 8 3 params_R2 _ rfl).2.2,
   (C4_shared_checkpoint_cleared 8 3 params_R2 _ rfl).1 0 4 400
     weights_file (by decide)⟩

/-- **C4 counterexample.** The checkpoint paths used by the successive
repetitions of `run_experiment 8 3` (with two repetitions configured) are
not pairwise distinct: both trainings use the same path, so no repetition
has "its own" checkpoint path. -/
theorem C4_not_per_repetition_path :
    ¬ ((traceOf (run_experiment 8 3 params_R2)).filterMap
        checkpointPathOf).Pairwise (fun a b => a ≠ b) := by
  decide

theorem countP_prefixEvents_testPrep (C E n : Nat) :
    (prefixEvents C E n).countP isBuildTestO1 = 1 ∧
    (prefixEvents C E n).countP isBuildTestO2 = 1 ∧
    (prefixEvents C E n).countP (isAddNoiseFrom 1) = 1 ∧
    (prefixEvents C E n).countP (isAddNoiseFrom 2) = 1 := by
  by_cases hc : C < 50 <;>
    simp [prefixEvents, hc, List.countP_append, List.countP_cons,
      isBuildTestO1, isBuildTestO2, isAddNoiseFrom]

theorem repEvents_flags {i c b ep : Nat} {e : REvent}
    (he : e ∈ repEvents i c b ep) :
    isBuildTestO1 e = false ∧ isBuildTestO2 e = false ∧
    isAddNoiseFrom 1 e = false ∧ isAddNoiseFrom 2 e = false ∧
    isTestPrep e = false := by
  simp only [repEvents, List.mem_cons, List.not_mem_nil, or_false] at he
  rcases he with rfl | rfl | rfl | rfl | rfl | rfl | rfl <;>
    simp [isBuildTestO1, isBuildTestO2, isAddNoiseFrom, isTestPrep]

theorem testsFixedAux_of_no_testPrep :
    ∀ (l : List REvent) (s : Bool), (∀ e ∈ l, isTestPrep e = false) →
      testsFixedAux l s = true
  | [], _, _ => rfl
  | e :: l, s, h => by
      have he : isTestPrep e = false := h e (List.mem_cons_self e l)
      simp only [testsFixedAux, he, Bool.and_false, Bool.false_eq_true,
        if_false]
      exact testsFixedAux_of_no_testPrep l _
        (fun x hx => h x (List.mem_cons_of_mem e hx))

theorem testsFixedAux_prefix (C E n : Nat) (rest : List REvent) :
    testsFixedAux (prefixEvents C E n ++ rest) false =
      testsFixedAux rest false := by
  by_cases hc : C < 50 <;>
    simp [prefixEvents, hc, testsFixedAux, isTestPrep, isBuildTestO1,
      isBuildTestO2, isAddNoiseFrom, isModelStep]

theorem no_testPrep_loop (R b ep : Nat) :
    ∀ e ∈ repTrace R b ep ++ [REvent.clearSession],
      isTestPrep e = false := by
  intro e he
  rcases List.mem_append.mp he with hr | hc
  · obtain ⟨i, _, hi⟩ := mem_repTrace.mp hr
    exact (repEvents_flags hi).2.2.2.2
  · simp only [List.mem_cons, List.not_mem_nil, or_false] at hc
    subst hc
    rfl

/-- **C7.** Within one `run_experiment` call, the order-1 and order-2 test
batches are built exactly once and noised exactly once, all before the
repetition loop (no test-batch preparation happens once model work starts),
and every evaluation in every repetition consumes exactly the two pre-loop
noised test batches (tags 3 and 4); meanwhile each repetition `i` draws its
own fresh noisy training copy (fresh tag `5 + i`) and constructs its own
fresh model. -/
theorem C7_test_batches_fixed (C E : Nat) (params : Params)
    (tr : List REvent) (h : run_experiment C E params = .ok tr) :
    (tr.countP isBuildTestO1 = 1 ∧ tr.countP isBuildTestO2 = 1 ∧
     tr.countP (isAddNoiseFrom 1) = 1 ∧
     tr.countP (isAddNoiseFrom 2) = 1) ∧
    testsFixedBeforeLoop tr = true ∧
    (∀ i t, (REvent.evaluateGeneralization i t) ∈ tr → t = 3 ∨ t = 4) ∧
    (∀ i, i < params.nb_trials →
      (REvent.addNoise 0 (5 + i)) ∈ tr ∧ (REvent.simpleMlp i) ∈ tr ∧
      (REvent.evaluateGeneralization i 3) ∈ tr ∧
      (REvent.evaluateGeneralization i 4) ∈ tr) := by
  by_cases hC : C ≤ 50
  · rw [run_experiment_ok C E params hC] at h
    obtain rfl := (Except.ok.injEq _ _).mp h.symm
    obtain ⟨h1, h2, h3, h4⟩ :=
      countP_prefixEvents_testPrep C E params.nb_test
    refine ⟨⟨?_, ?_, ?_, ?_⟩, ?_, ?_, ?_⟩
    · rw [List.countP_append, List.countP_append, h1,
        countP_repTrace_eq_zero
          (fun i c e he => by simp [(repEvents_flags he).1])]
      rfl
    · rw [List.countP_append, List.countP_append, h2,
        countP_repTrace_eq_zero
          (fun i c e he => by simp [(repEvents_flags he).2.1])]
      rfl
    · rw [List.countP_append, List.countP_append, h3,
        countP_repTrace_eq_zero
          (fun i c e he => by simp [(repEvents_flags he).2.2.1])]
      rfl
    · rw [List.countP_append, List.countP_append, h4,
        countP_repTrace_eq_zero
          (fun i c e he => by simp [(repEvents_flags he).2.2.2.1])]
      rfl
    · rw [testsFixedBeforeLoop, List.append_assoc, testsFixedAux_prefix]
      exact testsFixedAux_of_no_testPrep _ false (no_testPrep_loop _ _ _)
    · intro i t hmem
      rcases List.mem_append.mp hmem with h1' | h2'
      · rcases List.mem_append.mp h1' with hp | hr
        · by_cases hc : C < 50 <;> simp [prefixEvents, hc] at hp
        · obtain ⟨j, _, hj⟩ := mem_repTrace.mp hr
          simp only [repEvents, List.mem_cons, List.not_mem_nil,
            or_false] at hj
          rcases hj with hj | hj | hj | hj | hj | hj | hj <;>
            (cases hj; try simp)
      · simp at h2'
    · intro i hi
      refine ⟨?_, ?_, ?_, ?_⟩ <;>
        exact List.mem_append_left _ (List.mem_append_right _
          (mem_repTrace.mpr ⟨i, hi, by simp [repEvents]⟩))
  · simp [run_experiment, hC] at h

/-- Witness for C7 at `(C, E) = (8, 3)` with two repetitions: the order-1
test batch is built once, the trace passes the fixed-test-batch scan, and
repetition 1 has its own fresh noisy training copy. -/
theorem C7_test_batches_fixed_witness :
    (traceOf (run_experiment 8 3 params_R2)).countP isBuildTestO1 = 1 ∧
    testsFixedBeforeLoop (traceOf (run_experiment 8 3 params_R2)) = true ∧
    (REvent.addNoise 0 6) ∈ traceOf (run_experiment 8 3 params_R2) :=
  ⟨(C7_test_batches_fixed 8 3 params_R2 _ rfl).1.1,
   (C7_test_batches_fixed 8 3 params_R2 _ rfl).2.1,
   ((C7_test_batches_fixed 8 3 params_R2 _ rfl).2.2.2 1 (by decide)).1⟩

/-- **C8 (corrected).** `run_experiment` performs no zero-batch-size check:
when the computed batch size `min(params['batch_size'],
floor(nb_categories * nb_exemplars / 5))` is 0, the call does not fail — it
returns normally and passes batch size 0 straight to training. -/
theorem C8_no_zero_batch_check (C E : Nat) (params : Params)
    (hC : C ≤ 50) (hz : computed_batch_size params.batch_size C E = 0)
    (hR : 0 < params.nb_trials) :
    ∃ tr, run_experiment C E params = .ok tr ∧
      (REvent.trainModel 0 0 params.nb_epochs weights_file) ∈ tr := by
  refine ⟨_, run_experiment_ok C E params hC, ?_⟩
  refine List.mem_append_left _ (List.mem_append_right _
    (mem_repTrace.mpr ⟨0, hR, ?_⟩))
  rw [hz] at *
  simp [repEvents, hz]

/-- Witness for C8's corrected statement at `(C, E) = (2, 2)` with
configured batch size 32: the computed batch size is
`min 32 (floor 4/5) = 0`. -/
theorem C8_no_zero_batch_check_witness :
    ∃ tr, run_experiment 2 2 params_C8 = .ok tr ∧
      (REvent.trainModel 0 0 params_C8.nb_epochs weights_file) ∈ tr :=
  C8_no_zero_batch_check 2 2 params_C8 (by decide) (by decide) (by decide)

/-- **C8 counterexample.** At `(nb_categories, nb_exemplars) = (2, 2)` with
configured batch size 32, the computed batch size is 0, yet `run_experiment`
does not fail fast: it returns normally and its trace trains with batch
size 0. -/
theorem C8_zero_batch_proceeds :
    computed_batch_size params_C8.batch_size 2 2 = 0 ∧
    (run_experiment 2 2 params_C8).toOption.isSome = true ∧
    (REvent.trainModel 0 0 400 weights_file) ∈
      traceOf (run_experiment 2 2 params_C8) := by
  decide

theorem processCell_eq (fn : Nat → Nat → Params → List Rat × List Rat)
    (params : Params) (st : LoopState) (cell : Nat × Nat × Nat × Nat) :
    processCell fn params st cell =
      { results_o1_gen :=
          applyCell (fun C E => (fn C E params).1) st.results_o1_gen cell,
        results_o2_gen :=
          applyCell (fun C E => (fn C E params).2) st.results_o2_gen cell,
        trace := st.trace ++ cellEvents cell,
        savedO1 := st.savedO1 ++
          [applyCell (fun C E => (fn C E params).1) st.results_o1_gen cell],
        savedO2 := st.savedO2 ++
          [applyCell (fun C E => (fn C E params).2) st.results_o2_gen
            cell] } :=
  rfl

theorem foldl_processCell (fn : Nat → Nat → Params → List Rat × List Rat)
    (params : Params) :
    ∀ (cells : List (Nat × Nat × Nat × Nat)) (st : LoopState),
      cells.foldl (processCell fn params) st =
        { results_o1_gen :=
            applyCells (fun C E => (fn C E params).1) st.results_o1_gen
              cells,
          results_o2_gen :=
            applyCells (fun C E => (fn C E params).2) st.results_o2_gen
              cells,
          trace := st.trace ++ cells.flatMap cellEvents,
          savedO1 := st.savedO1 ++
            snapshotsFrom (fun C E => (fn C E params).1)
              st.results_o1_gen cells,
          savedO2 := st.savedO2 ++
            snapshotsFrom (fun C E => (fn C E params).2)
              st.results_o2_gen cells }
  | [], st => by cases st; simp [applyCells, snapshotsFrom]
  | c :: cs, st => by
      rw [List.foldl_cons, foldl_processCell fn params cs, processCell_eq]
      simp [applyCells, snapshotsFrom, List.append_assoc]

theorem experiment_loop_trace (fn : Nat → Nat → Params → List Rat × List Rat)
    (cats exs : List Nat) (params : Params) (pe : Bool) :
    (experiment_loop fn cats exs params pe).trace =
      (if pe then
        [LEvent.warnOldResults, LEvent.rmtreeResultsPath,
          LEvent.mkdirResultsPath]
       else [LEvent.mkdirResultsPath]) ++
      ([LEvent.saveCategoryTrials, LEvent.saveExemplarTrials] ++
        ((cellList cats exs).flatMap cellEvents ++
          [LEvent.loopComplete])) := by
  simp [experiment_loop, foldl_processCell, List.append_assoc]

theorem experiment_loop_savedO1
    (fn : Nat → Nat → Params → List Rat × List Rat)
    (cats exs : List Nat) (params : Params) (pe : Bool) :
    (experiment_loop fn cats exs params pe).savedO1 =
      snapshotsFrom (fun C E => (fn C E params).1) zeros
        (cellList cats exs) := by
  simp [experiment_loop, foldl_processCell]

theorem experiment_loop_savedO2
    (fn : Nat → Nat → Params → List Rat × List Rat)
    (cats exs : List Nat) (params : Params) (pe : Bool) :
    (experiment_loop fn cats exs params pe).savedO2 =
      snapshotsFrom (fun C E => (fn C E params).2) zeros
        (cellList cats exs) := by
  simp [experiment_loop, foldl_processCell]

theorem experiment_loop_results_o1
    (fn : Nat → Nat → Params → List Rat × List Rat)
    (cats exs : List Nat) (params : Params) (pe : Bool) :
    (experiment_loop fn cats exs params pe).results_o1_gen =
      applyCells (fun C E => (fn C E params).1) zeros
        (cellList cats exs) := by
  simp [experiment_loop, foldl_processCell]

theorem experiment_loop_results_o2
    (fn : Nat → Nat → Params → List Rat × List Rat)
    (cats exs : List Nat) (params : Params) (pe : Bool) :
    (experiment_loop fn cats exs params pe).results_o2_gen =
      applyCells (fun C E => (fn C E params).2) zeros
        (cellList cats exs) := by
  simp [experiment_loop, foldl_processCell]

theorem filterMap_execOf_flatMap :
    ∀ cells : List (Nat × Nat × Nat × Nat),
      (cells.flatMap cellEvents).filterMap execOf = cells
  | [] => rfl
  | c :: cs => by
      rw [List.flatMap_cons, List.filterMap_append,
        filterMap_execOf_flatMap cs]
      simp [cellEvents, execOf]

theorem savesAux_flatMap_cellEvents :
    ∀ cells : List (Nat × Nat × Nat × Nat),
      savesAfterEachExecAux
        (cells.flatMap cellEvents ++ [LEvent.loopComplete]) false false =
        true
  | [] => rfl
  | c :: cs => by
      rw [List.flatMap_cons, List.append_assoc]
      simp only [cellEvents, List.cons_append, List.nil_append,
        savesAfterEachExecAux, Bool.not_false, Bool.and_self,
        Bool.true_and]
      exact savesAux_flatMap_cellEvents cs

/-- **C5.** In `experiment_loop`, the grid cells execute exactly in
row-major order over (category-count, exemplar-count); after every cell
execution both result tensors are saved before the next cell executes (and
before the loop ends); and the successively persisted tensor values are
exactly the zero-initialized tensors with the first `k + 1` cells' returned
score sequences written into their `(i, j)` slices — so both tensors are
persisted, cell by cell, before the sweep advances. -/
theorem C5_rowmajor_write_persist
    (fn : Nat → Nat → Params → List Rat × List Rat)
    (cats exs : List Nat) (params : Params) (pe : Bool) :
    (experiment_loop fn cats exs params pe).trace.filterMap execOf =
      cellList cats exs ∧
    savesAfterEachExec (experiment_loop fn cats exs params pe).trace =
      true ∧
    (experiment_loop fn cats exs params pe).savedO1 =
      snapshotsFrom (fun C E => (fn C E params).1) zeros
        (cellList cats exs) ∧
    (experiment_loop fn cats exs params pe).savedO2 =
      snapshotsFrom (fun C E => (fn C E params).2) zeros
        (cellList cats exs) ∧
    (experiment_loop fn cats exs params pe).results_o1_gen =
      applyCells (fun C E => (fn C E params).1) zeros
        (cellList cats exs) ∧
    (experiment_loop fn cats exs params pe).results_o2_gen =
      applyCells (fun C E => (fn C E params).2) zeros
        (cellList cats exs) := by
  refine ⟨?_, ?_, experiment_loop_savedO1 fn cats exs params pe,
    experiment_loop_savedO2 fn cats exs params pe,
    experiment_loop_results_o1 fn cats exs params pe,
    experiment_loop_results_o2 fn cats exs params pe⟩
  · rw [experiment_loop_trace, List.filterMap_append,
      List.filterMap_append, List.filterMap_append,
      filterMap_execOf_flatMap]
    cases pe <;> simp [execOf]
  · rw [savesAfterEachExec, experiment_loop_trace]
    cases pe <;>
      simpa [savesAfterEachExecAux] using
        savesAux_flatMap_cellEvents (cellList cats exs)

/-- **C6.** If the results directory already exists when `experiment_loop`
starts, this is not an error: the trace begins with the warning, the
destructive removal of the old directory, and the creation of a fresh one;
no grid cell executes before the directory creation; and the sweep still
runs to normal completion. -/
theorem C6_existing_dir_replaced
    (fn : Nat → Nat → Params → List Rat × List Rat)
    (cats exs : List Nat) (params : Params) :
    (experiment_loop fn cats exs params true).trace.take 3 =
      [LEvent.warnOldResults, LEvent.rmtreeResultsPath,
        LEvent.mkdirResultsPath] ∧
    noExecBeforeMkdir (experiment_loop fn cats exs params true).trace =
      true ∧
    (experiment_loop fn cats exs params true).trace.getLast? =
      some LEvent.loopComplete := by
  rw [experiment_loop_trace]
  refine ⟨rfl, rfl, ?_⟩
  rw [← List.append_assoc, ← List.append_assoc, List.getLast?_concat]

theorem snapshotsFrom_get? (f : Nat → Nat → List Rat) :
    ∀ (cells : List (Nat × Nat × Nat × Nat)) (t0 : Tensor) (k : Nat)
      (tk : Tensor),
      (snapshotsFrom f t0 cells).get? k = some tk →
      tk = applyCells f t0 (cells.take (k + 1))
  | [], t0, k, tk => by intro h; simp [snapshotsFrom] at h
  | c :: cs, t0, 0, tk => by
      intro h
      simp only [snapshotsFrom, List.get?] at h
      obtain rfl := (Option.some.injEq _ _).mp h.symm
      simp [applyCells]
  | c :: cs, t0, k + 1, tk => by
      intro h
      simp only [snapshotsFrom, List.get?] at h
      have := snapshotsFrom_get? f cs (applyCell f t0 c) k tk h
      simpa [applyCells] using this

theorem applyCells_untouched (f : Nat → Nat → List Rat) :
    ∀ (cells : List (Nat × Nat × Nat × Nat)) (t0 : Tensor) (a b r : Nat),
      t0 a b r = 0 →
      (∀ c ∈ cells, ¬ (c.1 = a ∧ c.2.1 = b)) →
      applyCells f t0 cells a b r = 0
  | [], t0, a, b, r, h0, _ => h0
  | c :: cs, t0, a, b, r, h0, hc => by
      rw [applyCells, List.foldl_cons]
      refine applyCells_untouched f cs _ a b r ?_
        (fun x hx => hc x (List.mem_cons_of_mem c hx))
      have hne := hc c (List.mem_cons_self c cs)
      simp only [applyCell, writeSlice]
      rw [if_neg (fun hab => hne ⟨hab.1.symm, hab.2.symm⟩)]
      exact h0

theorem getD_zero_of_all_zero :
    ∀ (scores : List Rat), (∀ s ∈ scores, s = 0) →
      ∀ r, scores.getD r 0 = 0
  | [], _, r => by cases r <;> rfl
  | s :: scores, h, 0 => h s (List.mem_cons_self s scores)
  | s :: scores, h, r + 1 =>
      getD_zero_of_all_zero scores
        (fun x hx => h x (List.mem_cons_of_mem s hx)) r

/-- **C10.** Both result tensors start all-zero, so every persisted snapshot
written after completing `k + 1` grid cells holds `0.0` at every cell not
among those `k + 1`; moreover writing a score sequence that is genuinely all
zero into a still-zero cell leaves the tensor pointwise unchanged — a reader
of the persisted tensors cannot distinguish an unrun cell from a cell whose
true generalization scores are 0. -/
theorem C10_zero_init_indistinguishable
    (fn : Nat → Nat → Params → List Rat × List Rat)
    (cats exs : List Nat) (params : Params) (pe : Bool) :
    (∀ k tk,
      (experiment_loop fn cats exs params pe).savedO1.get? k = some tk →
      ∀ a b r,
        (∀ c ∈ (cellList cats exs).take (k + 1),
          ¬ (c.1 = a ∧ c.2.1 = b)) →
        tk a b r = 0) ∧
    (∀ k tk,
      (experiment_loop fn cats exs params pe).savedO2.get? k = some tk →
      ∀ a b r,
        (∀ c ∈ (cellList cats exs).take (k + 1),
          ¬ (c.1 = a ∧ c.2.1 = b)) →
        tk a b r = 0) ∧
    (∀ (t : Tensor) (i j : Nat) (scores : List Rat),
      (∀ s ∈ scores, s = 0) → (∀ r, t i j r = 0) →
      ∀ a b r, writeSlice t i j scores a b r = t a b r) := by
  refine ⟨?_, ?_, ?_⟩
  · intro k tk hk a b r huntouched
    rw [experiment_loop_savedO1] at hk
    rw [snapshotsFrom_get? _ _ _ _ _ hk]
    exact applyCells_untouched _ _ zeros a b r rfl huntouched
  · intro k tk hk a b r huntouched
    rw [experiment_loop_savedO2] at hk
    rw [snapshotsFrom_get? _ _ _ _ _ hk]
    exact applyCells_untouched _ _ zeros a b r rfl huntouched
  · intro t i j scores hs ht a b r
    rw [writeSlice]
    by_cases hab : a = i ∧ b = j
    · rw [if_pos hab, getD_zero_of_all_zero scores hs, hab.1, hab.2]
      exact (ht r).symm
    · rw [if_neg hab]

/-- Witness for C10 on the one-cell grid `[2] × [3]` with an `exectue_fn`
returning score 1: the first persisted snapshot is zero away from cell
`(0, 0)`, and writing all-zero scores into a zero cell changes nothing. -/
theorem C10_zero_init_indistinguishable_witness :
    (writeSlice zeros 0 0 [(1 : Rat)]) 5 5 0 = 0 ∧
    writeSlice zeros 3 1 [(0 : Rat), 0] 3 1 7 = zeros 3 1 7 :=
  ⟨(C10_zero_init_indistinguishable exectue_fn_example [2] [3]
      params_example true).1 0 (writeSlice zeros 0 0 [(1 : Rat)]) rfl 5 5 0
      (by decide),
   (C10_zero_init_indistinguishable exectue_fn_example [2] [3]
      params_example true).2.2 zeros 3 1 [(0 : Rat), 0] (by decide)
      (fun _ => rfl) 3 1 7⟩

end MlpLoopCombined
